import Mathlib

/-!
Verification development for the website-audit program in `src/stream_1.py`.

The program fetches a seed page, extracts on-page SEO signals, discovers
same-origin links, audits a bounded number of them via a thread pool, calls an
external scoring API (PageSpeed Insights), and probes `robots.txt`.

The embedding below is a shallow functional model of that program:
network behaviour is an explicit environment `String → FetchResult` mapping a
requested URL to the outcome of `requests.get` on it, and the Streamlit UI is
dropped — only the data computed by `main`'s audit path is modelled.
-/

/-- Python `str.strip()`: removes leading and trailing whitespace. -/
def pyStrip (s : String) : String :=
  ⟨((s.data.dropWhile Char.isWhitespace).reverse.dropWhile Char.isWhitespace).reverse⟩

/-- Python `str.startswith(pre)`. -/
def startswith (pre s : String) : Bool :=
  pre.data.isPrefixOf s.data

/-- Splits a character list at the first occurrence of `"://"`, returning the
scheme part and the remainder.  Helper for the `urllib.parse` model. -/
def splitSchemeAux : List Char → List Char → Option (List Char × List Char)
  | acc, ':' :: '/' :: '/' :: rest => some (acc.reverse, rest)
  | acc, c :: rest => splitSchemeAux (c :: acc) rest
  | _, [] => none

/-- `urllib.parse.urlparse(u).scheme` for URLs of the form `scheme://...`
(the only shape the program produces; bare `scheme:` URLs are out of scope). -/
def urlScheme (u : String) : String :=
  match splitSchemeAux [] u.data with
  | some (s, _) => ⟨s⟩
  | none => ""

/-- `urllib.parse.urlparse(u).netloc`: the host(+port) part — the characters
between `"://"` (or a leading `"//"`) and the next `/`.  A URL with neither
has an empty netloc (Python parses `example.com/x` as all path). -/
def urlNetloc (u : String) : String :=
  match splitSchemeAux [] u.data with
  | some (_, rest) => ⟨rest.takeWhile (fun c => c != '/')⟩
  | none =>
    if u.data.take 2 = ['/', '/'] then ⟨(u.data.drop 2).takeWhile (fun c => c != '/')⟩
    else ""

/-- `urllib.parse.urlparse(u).path` for `scheme://netloc/path` URLs. -/
def urlPath (u : String) : String :=
  match splitSchemeAux [] u.data with
  | some (_, rest) => ⟨rest.dropWhile (fun c => c != '/')⟩
  | none => u

/-- RFC 3986 relative-path merge as performed by `urllib.parse.urljoin`: the
reference is appended to the base path with its last segment removed.  Dot
segments and query/fragment parts are not modelled (no input here uses them). -/
def mergePath (basePath ref : String) : String :=
  let pre : String := ⟨(basePath.data.reverse.dropWhile (fun c => c != '/')).reverse⟩
  (if pre = "" then "/" else pre) ++ ref

/-- `urllib.parse.urljoin(base, url)` restricted to the http(s) shapes the
program manipulates: an absolute reference wins; `//host/...` keeps the base
scheme; `/path` keeps scheme and netloc; an empty reference yields the base;
a relative path is merged against the base path. -/
def urljoin (base url : String) : String :=
  if (splitSchemeAux [] url.data).isSome then url
  else if url.data.take 2 = ['/', '/'] then urlScheme base ++ ":" ++ url
  else if url.data.take 1 = ['/'] then urlScheme base ++ "://" ++ urlNetloc base ++ url
  else if url = "" then base
  else urlScheme base ++ "://" ++ urlNetloc base ++ mergePath (urlPath base) url

/-- The HTML signals `BeautifulSoup` extraction reads off a parsed page: the
fields of the `soup` object that `stream_1.py` inspects.  `anchorHrefs` are the
`href` attributes of `<a href=...>` elements in document order; `imgAlts` are
the `alt` attributes (absent = `none`) of `<img>` elements. -/
structure Soup where
  title : Option String
  metaDescription : Option String
  h1s : List String
  anchorHrefs : List String
  imgAlts : List (Option String)
  viewport : Bool
  canonical : Option String
  hreflang : Bool
deriving DecidableEq

/-- Outcome of `requests.get(url, ...)` followed by `raise_for_status()`:
`ok` is a response whose status does not raise (2xx/3xx) with its parsed body;
`httpErr` is a 4xx/5xx response (`raise_for_status` raises `HTTPError` after the
status code was recorded); `netErr` is a connection error or timeout raised by
`requests.get` itself (no status code). -/
inductive FetchResult
  | ok (status : Nat) (soup : Soup)
  | httpErr (status : Nat) (msg : String)
  | netErr (msg : String)
deriving DecidableEq

/-- The dictionary built by `audit_page` (lines 37-60): url, status code,
error, parsed soup, and the basic SEO fields set only on success. -/
structure PageResult where
  url : String
  status_code : Option Nat
  error : Option String
  soup : Option Soup
  title : Option String
  meta_description : Option String
  h1_tags : List String
deriving DecidableEq

/-- `audit_page(url)` (lines 37-60): one GET; on success record status, soup,
stripped title (or `""` when absent), stripped meta description (or `""`),
stripped h1 texts; on `RequestException` record the message in `error`. -/
def audit_page (env : String → FetchResult) (url : String) : PageResult :=
  match env url with
  | .ok status soup =>
      { url := url, status_code := some status, error := none, soup := some soup,
        title := some (soup.title.elim "" pyStrip),
        meta_description := some (soup.metaDescription.elim "" pyStrip),
        h1_tags := soup.h1s.map pyStrip }
  | .httpErr status msg =>
      { url := url, status_code := some status, error := some msg, soup := none,
        title := none, meta_description := none, h1_tags := [] }
  | .netErr msg =>
      { url := url, status_code := none, error := some msg, soup := none,
        title := none, meta_description := none, h1_tags := [] }

/-- The opaque JSON structure returned by the PageSpeed Insights API; the
claims never inspect its contents, so it is carried as an abstract payload. -/
structure ScoreReport where
  raw : String
deriving DecidableEq

/-- Outcome of the GET against the PageSpeed API URL (`raise_for_status` plus
`.json()`): a report, or a `RequestException` message. -/
inductive PsiOutcome
  | ok (report : ScoreReport)
  | err (msg : String)
deriving DecidableEq

/-- The API URL built on line 66 of `stream_1.py`. -/
def psiApiUrl (url key : String) : String :=
  "https://www.googleapis.com/pagespeedonline/v5/runPagespeed?url=" ++ url ++
    "&strategy=mobile&category=performance&category=accessibility&category=seo&category=best-practices&key=" ++ key

/-- `run_pagespeed_insights(url)` (lines 62-72): a missing (or empty, hence
falsy) API key short-circuits to `(None, "Google PageSpeed API Key not
found.")`; otherwise the API is called and a `RequestException` becomes
`(None, str(e))`. -/
def run_pagespeed_insights (apiKey : Option String) (psiEnv : String → PsiOutcome)
    (url : String) : Option ScoreReport × Option String :=
  match apiKey with
  | none => (none, some "Google PageSpeed API Key not found.")
  | some key =>
      if key = "" then (none, some "Google PageSpeed API Key not found.")
      else
        match psiEnv (psiApiUrl url key) with
        | .ok report => (some report, none)
        | .err msg => (none, some msg)

/-- `get_internal_links(base_url, soup)` (lines 84-86): the set of joins of
every anchor href against the base URL, filtered to those whose `netloc`
equals the base URL's `netloc`.  The Python `set` is modelled as a duplicate
free list (iteration order of a Python set is unspecified; membership is the
meaningful content). -/
def get_internal_links (base_url : String) (anchorHrefs : List String) : List String :=
  ((anchorHrefs.map (urljoin base_url)).dedup).filter
    (fun link => urlNetloc link == urlNetloc base_url)

/-- The candidate links once the seed URL itself is removed — the
`internal_links - {url}` set difference on line 273, which removes elements
equal to `url` as exact strings. -/
def candidates (internal_links : List String) (url : String) : List String :=
  internal_links.filter (fun l => l != url)

/-- `list(internal_links - {url})[:crawl_pages-1]` (line 273). -/
def links_to_crawl_of (internal_links : List String) (url : String)
    (crawl_pages : Nat) : List String :=
  (candidates internal_links url).take (crawl_pages - 1)

/-- `ThreadPoolExecutor(max_workers=5).map(audit_page, links_to_crawl)`
(lines 275-277): the tasks run concurrently, but `Executor.map` yields the
results in the order of its input iterable — worker completion order never
affects the returned list, so the collected results are exactly the sequential
map over the dispatched list. -/
def executor_map (f : String → PageResult) (tasks : List String) : List PageResult :=
  tasks.map f

/-- Lines 236 and 258-259: inputs lacking an `http://` or `https://` scheme
get `https://` prepended before any request is made. -/
def normalizeUrl (url_input : String) : String :=
  if startswith "http://" url_input || startswith "https://" url_input then url_input
  else "https://" ++ url_input

/-- Everything `main`'s audit-button handler computes (lines 258-282), with
the intermediate `internal_links` and `links_to_crawl` lists exposed so that
the dispatch behaviour is observable.  When no crawl happens they are `[]`
(the corresponding Python names are never bound in that case). -/
structure AuditOutcome where
  psi_results : Option ScoreReport
  psi_error : Option String
  internal_links : List String
  links_to_crawl : List String
  crawl_data : List PageResult
deriving DecidableEq

/-- Result of the audit-button handler: `aborted` is the early `return` on a
seed fetch error (line 264) — no crawl list is built, no link discovery and no
worker dispatch happen, nothing is stored for display; `completed` carries the
data stored into session state. -/
inductive AuditResult
  | aborted (seed : PageResult)
  | completed (outcome : AuditOutcome)
deriving DecidableEq

/-- The crawl batch the handler stores, when one is produced at all. -/
def AuditResult.batch : AuditResult → Option (List PageResult)
  | .aborted _ => none
  | .completed o => some o.crawl_data

/-- The list of links dispatched to the worker pool, when a run completed. -/
def AuditResult.links : AuditResult → Option (List String)
  | .aborted _ => none
  | .completed o => some o.links_to_crawl

/-- The completed outcome, when the run was not aborted. -/
def AuditResult.outcome : AuditResult → Option AuditOutcome
  | .aborted _ => none
  | .completed o => some o

/-- The audit-button handler body after URL normalization (lines 261-282):
fetch the seed; on error abort (line 264); otherwise run PageSpeed Insights,
then — when `crawl_pages > 1` and the soup is present — discover internal
links, drop the seed URL, take up to `crawl_pages - 1` of them, audit them on
the thread pool and append the results after the seed's result. -/
def auditSiteUrl (env : String → FetchResult) (psiEnv : String → PsiOutcome)
    (apiKey : Option String) (url : String) (crawl_pages : Nat) : AuditResult :=
  let main_page_data := audit_page env url
  if main_page_data.error.isSome then AuditResult.aborted main_page_data
  else
    let psi := run_pagespeed_insights apiKey psiEnv url
    match main_page_data.soup with
    | some soup =>
        if 1 < crawl_pages then
          let internal_links := get_internal_links url soup.anchorHrefs
          let lt := links_to_crawl_of internal_links url crawl_pages
          AuditResult.completed
            { psi_results := psi.1, psi_error := psi.2,
              internal_links := internal_links, links_to_crawl := lt,
              crawl_data := main_page_data :: executor_map (audit_page env) lt }
        else
          AuditResult.completed
            { psi_results := psi.1, psi_error := psi.2, internal_links := [],
              links_to_crawl := [], crawl_data := [main_page_data] }
    | none =>
        AuditResult.completed
          { psi_results := psi.1, psi_error := psi.2, internal_links := [],
            links_to_crawl := [], crawl_data := [main_page_data] }

/-- The audit-button handler (lines 258-282): normalize the user input
(line 259), then run the audit on the resulting URL. -/
def auditSite (env : String → FetchResult) (psiEnv : String → PsiOutcome)
    (apiKey : Option String) (url_input : String) (crawl_pages : Nat) : AuditResult :=
  auditSiteUrl env psiEnv apiKey (normalizeUrl url_input) crawl_pages

/-- The keyword-suggestion button handler up to its fetch (lines 234-238): an
empty input issues no request at all; otherwise the input is normalized
exactly as on line 236 and `audit_page` is called on the result. -/
def suggest_fetch (env : String → FetchResult) (url_input : String) : Option PageResult :=
  if url_input = "" then none
  else some (audit_page env (normalizeUrl url_input))

/-- `sum(1 for img in images if not img.get('alt', '').strip())` (line 174):
an image counts as missing alt text when its `alt` attribute, defaulted to
`""` when absent, strips to the empty (falsy) string. -/
def images_without_alt (imgAlts : List (Option String)) : Nat :=
  imgAlts.countP (fun alt => pyStrip (alt.getD "") == "")

/-- The alt-text coverage reported on lines 173-178: total image count and the
number of images missing alt text. -/
def altTextReport (imgAlts : List (Option String)) : Nat × Nat :=
  (imgAlts.length, images_without_alt imgAlts)

/-- Outcome of the plain `requests.get(robots_url, timeout=5)` probe
(line 194): a status code, or a `RequestException`. -/
inductive ProbeResult
  | status (code : Nat)
  | exn (msg : String)
deriving DecidableEq

/-- What `display_technical_audit` (lines 188-208) computes: the list of URLs
it requests (`probed` — the function performs exactly one HTTP request), the
robots.txt verdict (`some true` on a 200, `some false` on any other status,
`none` when the request raised), and the soup-derived tag checks. -/
structure TechAudit where
  probed : List String
  robots_found : Option Bool
  canonical_present : Bool
  hreflang_present : Bool
deriving DecidableEq

/-- `display_technical_audit(soup, url)` (lines 188-208): one GET against
`urljoin(url, "/robots.txt")`; found exactly when the status code is 200. -/
def display_technical_audit (probeEnv : String → ProbeResult) (soup : Soup)
    (url : String) : TechAudit :=
  let robots_url := urljoin url "/robots.txt"
  let robots_found :=
    match probeEnv robots_url with
    | .status code => some (code == 200)
    | .exn _ => none
  { probed := [robots_url], robots_found := robots_found,
    canonical_present := soup.canonical.isSome,
    hreflang_present := soup.hreflang }

/-- Modelled from the spec (Glossary): the Origin of a URL is its scheme plus
host (+ port), "used to decide same-site link membership". -/
def specOrigin (u : String) : String × String :=
  (urlScheme u, urlNetloc u)

/-- Modelled from the spec (section 4.2): an image "counts as missing alt when
its alt attribute is absent or contains only whitespace". -/
def missingAltSpec (alt : Option String) : Bool :=
  match alt with
  | none => true
  | some s => s.data.all Char.isWhitespace

/-- Insert a task into a list ordered by completion time.  Spec-side helper. -/
def insertBySched (sched : String → Nat) (x : String) : List String → List String
  | [] => [x]
  | y :: ys => if sched x ≤ sched y then x :: y :: ys else y :: insertBySched sched x ys

/-- Modelled from the spec (sections 3 and 5): the order in which the parallel
workers complete, given a completion time `sched u` for the worker auditing
`u` — the dispatched tasks sorted by completion time. -/
def completionOrdered (sched : String → Nat) : List String → List String
  | [] => []
  | x :: xs => insertBySched sched x (completionOrdered sched xs)

/-! ## Concrete environments used by witnesses and counterexamples -/

/-- A page with two same-origin anchors, used as a seed page. -/
def soupSeed : Soup :=
  { title := some " Seed Page ", metaDescription := some "desc", h1s := ["top"],
    anchorHrefs := ["/a", "/b"], imgAlts := [some "logo"], viewport := true,
    canonical := none, hreflang := false }

/-- A leaf page with no links. -/
def soupLeaf : Soup :=
  { title := some "Leaf", metaDescription := none, h1s := [], anchorHrefs := [],
    imgAlts := [], viewport := false, canonical := none, hreflang := false }

/-- A network where every fetch succeeds, and `https://seed.test/` serves a
page with two same-origin links. -/
def envOk : String → FetchResult := fun u =>
  if u = "https://seed.test/" then .ok 200 soupSeed else .ok 200 soupLeaf

/-- A network where every fetch raises a connection error. -/
def envConnRefused : String → FetchResult := fun _ => .netErr "connection refused"

/-- A network where every fetch times out. -/
def envTimeout : String → FetchResult := fun _ => .netErr "timed out"

/-- A network where every fetch returns HTTP 503 (`raise_for_status` raises). -/
def envHttp503 : String → FetchResult := fun _ => .httpErr 503 "503 Server Error"

/-- A PageSpeed API that always answers. -/
def psiTriv : String → PsiOutcome := fun _ => .ok ⟨"report"⟩

/-- Leaf page titled `A`. -/
def soupPageA : Soup :=
  { title := some "A", metaDescription := none, h1s := [], anchorHrefs := [],
    imgAlts := [], viewport := false, canonical := none, hreflang := false }

/-- Leaf page titled `B`. -/
def soupPageB : Soup :=
  { title := some "B", metaDescription := none, h1s := [], anchorHrefs := [],
    imgAlts := [], viewport := false, canonical := none, hreflang := false }

/-- Network for the completion-order scenario: the seed links to `/a` and
`/b`, which serve distinct pages. -/
def envC5 : String → FetchResult := fun u =>
  if u = "https://s.test/" then .ok 200 soupSeed
  else if u = "https://s.test/a" then .ok 200 soupPageA
  else .ok 200 soupPageB

/-- A completion schedule under which the worker for `/b` finishes first. -/
def schedC5 : String → Nat := fun u => if u = "https://s.test/b" then 0 else 1

/-- The page at `https://site.test/a`, whose only anchor points back at
itself under a trailing-slash spelling. -/
def soupC10 : Soup :=
  { title := some "Page A", metaDescription := none, h1s := [],
    anchorHrefs := ["/a/"], imgAlts := [], viewport := false,
    canonical := none, hreflang := false }

/-- Network that serves the same page for the seed URL and its trailing-slash
variant. -/
def envC10 : String → FetchResult := fun u =>
  if u = "https://site.test/a" then .ok 200 soupC10
  else if u = "https://site.test/a/" then .ok 200 soupC10
  else .netErr "unreachable"

/-- A probe environment that has a robots.txt at `example.com` and nothing
else. -/
def probeC8 : String → ProbeResult := fun u =>
  if u = "https://example.com/robots.txt" then .status 200 else .status 404

/-- A soup with no tags at all. -/
def soupEmpty : Soup :=
  { title := none, metaDescription := none, h1s := [], anchorHrefs := [],
    imgAlts := [], viewport := false, canonical := none, hreflang := false }

/-! ## Helper lemmas -/

theorem all_of_dropWhile_all {w : Char → Bool} {d : List Char}
    (h : ∀ x ∈ d.dropWhile w, w x) : ∀ x ∈ d, w x := by
  intro x hx
  have hd := List.takeWhile_append_dropWhile w d
  rw [← hd] at hx
  rcases List.mem_append.mp hx with h1 | h2
  · exact List.mem_takeWhile_imp h1
  · exact h x h2

theorem pyStrip_eq_empty_iff (s : String) :
    pyStrip s = "" ↔ s.data.all Char.isWhitespace = true := by
  constructor
  · intro h
    have hdata : ((s.data.dropWhile Char.isWhitespace).reverse.dropWhile
        Char.isWhitespace).reverse = [] := congrArg String.data h
    rw [List.reverse_eq_nil_iff, List.dropWhile_eq_nil_iff] at hdata
    rw [List.all_eq_true]
    exact all_of_dropWhile_all fun y hy => hdata y (List.mem_reverse.mpr hy)
  · intro h
    rw [List.all_eq_true] at h
    have h1 : s.data.dropWhile Char.isWhitespace = [] :=
      List.dropWhile_eq_nil_iff.mpr h
    apply String.ext
    simp [pyStrip, h1]


/-- On a successful fetch, `audit_page` yields the success record. -/
theorem audit_page_ok (env : String → FetchResult) (url : String) (st : Nat)
    (soup : Soup) (henv : env url = .ok st soup) :
    audit_page env url =
      { url := url, status_code := some st, error := none, soup := some soup,
        title := some (soup.title.elim "" pyStrip),
        meta_description := some (soup.metaDescription.elim "" pyStrip),
        h1_tags := soup.h1s.map pyStrip } := by
  unfold audit_page
  rw [henv]

/-- A seed fetch error makes the handler abort (line 264). -/
theorem auditSiteUrl_error (env : String → FetchResult) (psiEnv : String → PsiOutcome)
    (apiKey : Option String) (url : String) (crawl_pages : Nat)
    (herr : (audit_page env url).error.isSome = true) :
    auditSiteUrl env psiEnv apiKey url crawl_pages =
      AuditResult.aborted (audit_page env url) := by
  simp only [auditSiteUrl]
  rw [if_pos herr]

/-- Reduction of the handler on a successful seed fetch with a budget above
one: link discovery, seed removal, truncation and the worker-pool map run. -/
theorem auditSiteUrl_ok_crawl (env : String → FetchResult) (psiEnv : String → PsiOutcome)
    (apiKey : Option String) (url : String) (crawl_pages : Nat) (st : Nat) (soup : Soup)
    (henv : env url = .ok st soup) (hn : 1 < crawl_pages) :
    auditSiteUrl env psiEnv apiKey url crawl_pages =
      AuditResult.completed
        { psi_results := (run_pagespeed_insights apiKey psiEnv url).1,
          psi_error := (run_pagespeed_insights apiKey psiEnv url).2,
          internal_links := get_internal_links url soup.anchorHrefs,
          links_to_crawl :=
            links_to_crawl_of (get_internal_links url soup.anchorHrefs) url crawl_pages,
          crawl_data := audit_page env url ::
            executor_map (audit_page env)
              (links_to_crawl_of (get_internal_links url soup.anchorHrefs) url
                crawl_pages) } := by
  rw [audit_page_ok env url st soup henv]
  simp only [auditSiteUrl, audit_page_ok env url st soup henv]
  simp [hn]

/-- Reduction of the handler on a successful seed fetch with a budget of at
most one: no discovery, no dispatch, the batch is the seed result alone. -/
theorem auditSiteUrl_ok_nocrawl (env : String → FetchResult) (psiEnv : String → PsiOutcome)
    (apiKey : Option String) (url : String) (crawl_pages : Nat) (st : Nat) (soup : Soup)
    (henv : env url = .ok st soup) (hn : ¬ 1 < crawl_pages) :
    auditSiteUrl env psiEnv apiKey url crawl_pages =
      AuditResult.completed
        { psi_results := (run_pagespeed_insights apiKey psiEnv url).1,
          psi_error := (run_pagespeed_insights apiKey psiEnv url).2,
          internal_links := [], links_to_crawl := [],
          crawl_data := [audit_page env url] } := by
  rw [audit_page_ok env url st soup henv]
  simp only [auditSiteUrl, audit_page_ok env url st soup henv]
  simp [hn]

/-- A seed fetch whose `audit_page` record carries no error came from a
successful response. -/
theorem exists_ok_of_error_none (env : String → FetchResult) (url : String)
    (hok : (audit_page env url).error = none) :
    ∃ st soup, env url = FetchResult.ok st soup := by
  cases henv : env url with
  | ok st soup => exact ⟨st, soup, rfl⟩
  | httpErr st msg => simp [audit_page, henv] at hok
  | netErr msg => simp [audit_page, henv] at hok

/-! ## Claims -/

/-- C3, counterexample: link discovery keeps `http://example.com/page` when
the base URL is `https://example.com/`, although the two origins (scheme +
host) differ — the code compares only `netloc`, never the scheme. -/
theorem c3_counterexample :
    "http://example.com/page" ∈
      get_internal_links "https://example.com/" ["http://example.com/page"] ∧
    specOrigin "http://example.com/page" ≠ specOrigin "https://example.com/" := by
  decide

/-- C3 (amended): link discovery resolves each anchor href against the base
URL; the resulting collection contains exactly the resolved links whose
`netloc` (host + port, scheme NOT compared) equals the base URL's netloc,
with duplicates removed. -/
theorem c3_link_discovery_characterization (base_url : String)
    (anchorHrefs : List String) :
    (∀ link, link ∈ get_internal_links base_url anchorHrefs ↔
      ((∃ href ∈ anchorHrefs, urljoin base_url href = link) ∧
        urlNetloc link = urlNetloc base_url)) ∧
    (get_internal_links base_url anchorHrefs).Nodup := by
  constructor
  · intro link
    unfold get_internal_links
    rw [List.mem_filter, List.mem_dedup, List.mem_map]
    simp only [beq_iff_eq]
  · exact (List.nodup_dedup _).filter _

/-- C4: for a page with `k` images of which `m` have an absent, empty or
whitespace-only alt attribute, the reported coverage is total `k` and
missing `m`. -/
theorem c4_alt_text_coverage (imgAlts : List (Option String)) :
    altTextReport imgAlts = (imgAlts.length, imgAlts.countP missingAltSpec) := by
  unfold altTextReport images_without_alt
  refine congrArg (Prod.mk imgAlts.length) (List.countP_congr ?_)
  intro alt _
  match alt with
  | none => simp [missingAltSpec, pyStrip]
  | some s =>
      simp only [Option.getD_some, missingAltSpec, beq_iff_eq]
      exact pyStrip_eq_empty_iff s

/-- C8, counterexample: the technical audit issues its robots.txt probe but
never requests `{origin}/sitemap.xml` — no sitemap probe exists in the code. -/
theorem c8_counterexample :
    "https://example.com/robots.txt" ∈
      (display_technical_audit probeC8 soupEmpty "https://example.com/").probed ∧
    "https://example.com/sitemap.xml" ∉
      (display_technical_audit probeC8 soupEmpty "https://example.com/").probed ∧
    (display_technical_audit probeC8 soupEmpty "https://example.com/").robots_found
      = some true := by
  decide

/-- C8 (amended): for every audited URL the technical audit issues exactly one
probe, a plain GET to `urljoin(url, "/robots.txt")`, and reports robots.txt
present exactly when that probe returns a 200 status; sitemap.xml is never
probed. -/
theorem c8_robots_probe (probeEnv : String → ProbeResult) (soup : Soup)
    (url : String) :
    (display_technical_audit probeEnv soup url).probed = [urljoin url "/robots.txt"] ∧
    ((display_technical_audit probeEnv soup url).robots_found = some true ↔
      probeEnv (urljoin url "/robots.txt") = ProbeResult.status 200) := by
  refine ⟨rfl, ?_⟩
  unfold display_technical_audit
  cases h : probeEnv (urljoin url "/robots.txt") with
  | status code => simp [h, beq_iff_eq]
  | exn msg => simp [h]

/-- C9: an input URL carrying neither the `http://` nor the `https://` scheme
gets `https://` prepended, and an input already carrying one is used
unchanged; both the audit flow and the keyword-suggestion flow fetch the
normalized URL. -/
theorem c9_scheme_normalization (env : String → FetchResult)
    (psiEnv : String → PsiOutcome) (apiKey : Option String)
    (url_input : String) (crawl_pages : Nat) :
    (normalizeUrl url_input = url_input ↔
      (startswith "http://" url_input = true ∨
        startswith "https://" url_input = true)) ∧
    (normalizeUrl url_input = url_input ∨
      normalizeUrl url_input = "https://" ++ url_input) ∧
    auditSite env psiEnv apiKey url_input crawl_pages =
      auditSiteUrl env psiEnv apiKey (normalizeUrl url_input) crawl_pages ∧
    suggest_fetch env url_input =
      (if url_input = "" then none
        else some (audit_page env (normalizeUrl url_input))) := by
  refine ⟨?_, ?_, rfl, rfl⟩
  · unfold normalizeUrl
    by_cases hc : (startswith "http://" url_input ||
        startswith "https://" url_input) = true
    · rw [if_pos hc]
      simp [Bool.or_eq_true] at hc
      simpa using hc
    · rw [if_neg hc]
      simp [Bool.or_eq_true] at hc
      constructor
      · intro habs
        have := congrArg String.length habs
        rw [String.length_append] at this
        have h8 : ("https://" : String).length = 8 := by decide
        omega
      · intro hor
        rcases hor with h | h <;> simp [h] at hc
  · unfold normalizeUrl
    by_cases hc : (startswith "http://" url_input ||
        startswith "https://" url_input) = true
    · exact Or.inl (if_pos hc)
    · exact Or.inr (if_neg hc)

/-- C10: candidate selection removes the seed from the discovered links by
exact string inequality only, and truncates to the budget; on a concrete
input whose page links to itself under a trailing-slash spelling, the
trailing-slash URL survives the removal and is audited again, so the batch
holds two results for the same page (same served content, same title,
textually different URLs). -/
theorem c10_seed_removal_string_equality :
    (∀ (internal_links : List String) (url link : String),
      link ∈ candidates internal_links url ↔
        (link ∈ internal_links ∧ link ≠ url)) ∧
    (∀ (internal_links : List String) (url : String) (crawl_pages : Nat),
      links_to_crawl_of internal_links url crawl_pages =
        (candidates internal_links url).take (crawl_pages - 1)) ∧
    ((auditSite envC10 psiTriv (some "key") "https://site.test/a" 2).batch).map
        (List.map PageResult.url) =
      some ["https://site.test/a", "https://site.test/a/"] ∧
    envC10 "https://site.test/a" = envC10 "https://site.test/a/" ∧
    ("https://site.test/a" : String) ≠ "https://site.test/a/" ∧
    ((auditSite envC10 psiTriv (some "key") "https://site.test/a" 2).batch).map
        (List.map PageResult.title) = some [some "Page A", some "Page A"] := by
  refine ⟨?_, fun _ _ _ => rfl, by decide, by decide, by decide, by decide⟩
  intro ils url link
  unfold candidates
  rw [List.mem_filter]
  simp [bne_iff_ne]

/-- C1, counterexample: with a budget of 3 and a seed whose fetch times out,
the handler aborts and no crawl batch is produced at all — the batch is not a
1-to-budget-length list headed by the seed's result, it does not exist. -/
theorem c1_counterexample :
    (auditSite envTimeout psiTriv (some "key") "https://slow.test/" 3).batch = none ∧
    (audit_page envTimeout (normalizeUrl "https://slow.test/")).error =
      some "timed out" := by
  decide

/-- C1 (amended): for every budget above one, whenever the seed fetch
succeeds, the handler produces a batch of length between 1 and the budget
whose first element is the seed's result; when the seed fetch fails no batch
is produced at all. -/
theorem c1_batch_bounds (env : String → FetchResult) (psiEnv : String → PsiOutcome)
    (apiKey : Option String) (url_input : String) (crawl_pages : Nat)
    (hbudget : 1 < crawl_pages)
    (hok : (audit_page env (normalizeUrl url_input)).error = none) :
    ((auditSite env psiEnv apiKey url_input crawl_pages).batch).isSome = true ∧
    1 ≤ (((auditSite env psiEnv apiKey url_input crawl_pages).batch).getD []).length ∧
    (((auditSite env psiEnv apiKey url_input crawl_pages).batch).getD []).length ≤
      crawl_pages ∧
    (((auditSite env psiEnv apiKey url_input crawl_pages).batch).getD []).head? =
      some (audit_page env (normalizeUrl url_input)) := by
  obtain ⟨st, soup, henv⟩ := exists_ok_of_error_none env (normalizeUrl url_input) hok
  unfold auditSite
  rw [auditSiteUrl_ok_crawl env psiEnv apiKey (normalizeUrl url_input) crawl_pages
    st soup henv hbudget]
  refine ⟨rfl, ?_, ?_, rfl⟩
  · simp [AuditResult.batch]
  · have htake : (links_to_crawl_of (get_internal_links (normalizeUrl url_input)
        soup.anchorHrefs) (normalizeUrl url_input) crawl_pages).length ≤
        crawl_pages - 1 := by
      unfold links_to_crawl_of
      exact List.length_take_le _ _
    simp only [AuditResult.batch, Option.getD_some, List.length_cons, executor_map,
      List.length_map]
    omega

/-- C1, witness: a concrete successful seed with two same-origin links and a
budget of 3 yields a 3-element batch headed by the seed's result. -/
theorem c1_witness :
    1 < 3 ∧
    (audit_page envOk (normalizeUrl "https://seed.test/")).error = none ∧
    (((auditSite envOk psiTriv (some "key") "https://seed.test/" 3).batch).isSome = true ∧
      1 ≤ (((auditSite envOk psiTriv (some "key") "https://seed.test/" 3).batch).getD []).length ∧
      (((auditSite envOk psiTriv (some "key") "https://seed.test/" 3).batch).getD []).length ≤ 3 ∧
      (((auditSite envOk psiTriv (some "key") "https://seed.test/" 3).batch).getD []).head? =
        some (audit_page envOk (normalizeUrl "https://seed.test/"))) :=
  ⟨by decide, by decide,
    c1_batch_bounds envOk psiTriv (some "key") "https://seed.test/" 3 (by decide)
      (by decide)⟩

/-- C2, counterexample: when the seed fetch raises a connection error the
handler returns no batch at all — in particular not a single-element batch
carrying the error — even though the seed's own result has its error field
populated. -/
theorem c2_counterexample :
    (auditSite envConnRefused psiTriv (some "key") "https://down.test/" 2).batch =
      none ∧
    (audit_page envConnRefused (normalizeUrl "https://down.test/")).error =
      some "connection refused" := by
  decide

/-- C2 (amended): when the seed fetch fails (network error, timeout or
non-2xx status) the handler aborts, returning only the failed seed result and
no batch; since it returns at that point, no link discovery and no worker
dispatch occur. -/
theorem c2_failed_seed_aborts (env : String → FetchResult)
    (psiEnv : String → PsiOutcome) (apiKey : Option String) (url_input : String)
    (crawl_pages : Nat)
    (herr : (audit_page env (normalizeUrl url_input)).error.isSome = true) :
    auditSite env psiEnv apiKey url_input crawl_pages =
      AuditResult.aborted (audit_page env (normalizeUrl url_input)) ∧
    (auditSite env psiEnv apiKey url_input crawl_pages).batch = none ∧
    (auditSite env psiEnv apiKey url_input crawl_pages).links = none := by
  have h := auditSiteUrl_error env psiEnv apiKey (normalizeUrl url_input)
    crawl_pages herr
  unfold auditSite
  rw [h]
  exact ⟨rfl, rfl, rfl⟩

/-- C2, witness: a seed answering HTTP 503 aborts the audit with the seed's
error recorded and no batch or dispatch list produced. -/
theorem c2_witness :
    (audit_page envHttp503 (normalizeUrl "https://err.test/")).error.isSome = true ∧
    (auditSite envHttp503 psiTriv (some "key") "https://err.test/" 5 =
        AuditResult.aborted (audit_page envHttp503 (normalizeUrl "https://err.test/")) ∧
      (auditSite envHttp503 psiTriv (some "key") "https://err.test/" 5).batch = none ∧
      (auditSite envHttp503 psiTriv (some "key") "https://err.test/" 5).links = none) :=
  ⟨by decide,
    c2_failed_seed_aborts envHttp503 psiTriv (some "key") "https://err.test/" 5
      (by decide)⟩

/-- C5, counterexample: the seed links to `/a` then `/b`; under a completion
schedule where the worker for `/b` finishes first, the batch after index 0 is
still the results in dispatch order `[a, b]`, not in completion order
`[b, a]` — `Executor.map` yields results in input order. -/
theorem c5_counterexample :
    completionOrdered schedC5 ["https://s.test/a", "https://s.test/b"] =
      ["https://s.test/b", "https://s.test/a"] ∧
    (auditSite envC5 psiTriv (some "key") "https://s.test/" 3).links =
      some ["https://s.test/a", "https://s.test/b"] ∧
    (auditSite envC5 psiTriv (some "key") "https://s.test/" 3).batch ≠
      some (audit_page envC5 "https://s.test/" ::
        (completionOrdered schedC5 ["https://s.test/a", "https://s.test/b"]).map
          (audit_page envC5)) := by
  decide

/-- C5 (amended): the batch is always the seed's result followed by the
audits of the dispatched links in dispatch order — the order of
`links_to_crawl` — independent of any worker completion order, because
`Executor.map` yields results in the order of its input. -/
theorem c5_batch_in_dispatch_order (env : String → FetchResult)
    (psiEnv : String → PsiOutcome) (apiKey : Option String) (url_input : String)
    (crawl_pages : Nat) :
    (auditSite env psiEnv apiKey url_input crawl_pages).batch =
      ((auditSite env psiEnv apiKey url_input crawl_pages).links).map
        (fun dispatched =>
          audit_page env (normalizeUrl url_input) ::
            executor_map (audit_page env) dispatched) := by
  unfold auditSite
  cases henv : env (normalizeUrl url_input) with
  | ok st soup =>
      by_cases hn : 1 < crawl_pages
      · rw [auditSiteUrl_ok_crawl env psiEnv apiKey (normalizeUrl url_input)
          crawl_pages st soup henv hn]
        rfl
      · rw [auditSiteUrl_ok_nocrawl env psiEnv apiKey (normalizeUrl url_input)
          crawl_pages st soup henv hn]
        rfl
  | httpErr st msg =>
      rw [auditSiteUrl_error env psiEnv apiKey (normalizeUrl url_input) crawl_pages
        (by simp [audit_page, henv])]
      rfl
  | netErr msg =>
      rw [auditSiteUrl_error env psiEnv apiKey (normalizeUrl url_input) crawl_pages
        (by simp [audit_page, henv])]
      rfl

/-- C6: with the scoring credential missing, the oracle adapter returns the
typed failure `(None, "Google PageSpeed API Key not found.")`, and — whenever
the seed fetch itself succeeds — the audit still completes: the outcome is
produced with that failure message recorded, no score report, and the crawl
batch headed by the seed's result. -/
theorem c6_missing_key_degrades (env : String → FetchResult)
    (psiEnv : String → PsiOutcome) (url_input : String) (crawl_pages : Nat)
    (hok : (audit_page env (normalizeUrl url_input)).error = none) :
    run_pagespeed_insights none psiEnv (normalizeUrl url_input) =
      (none, some "Google PageSpeed API Key not found.") ∧
    ((auditSite env psiEnv none url_input crawl_pages).outcome).isSome = true ∧
    ((auditSite env psiEnv none url_input crawl_pages).outcome).map
        AuditOutcome.psi_error = some (some "Google PageSpeed API Key not found.") ∧
    ((auditSite env psiEnv none url_input crawl_pages).outcome).map
        AuditOutcome.psi_results = some none ∧
    (((auditSite env psiEnv none url_input crawl_pages).batch).getD []).head? =
      some (audit_page env (normalizeUrl url_input)) := by
  obtain ⟨st, soup, henv⟩ := exists_ok_of_error_none env (normalizeUrl url_input) hok
  unfold auditSite
  by_cases hn : 1 < crawl_pages
  · rw [auditSiteUrl_ok_crawl env psiEnv none (normalizeUrl url_input) crawl_pages
      st soup henv hn]
    exact ⟨rfl, rfl, rfl, rfl, rfl⟩
  · rw [auditSiteUrl_ok_nocrawl env psiEnv none (normalizeUrl url_input) crawl_pages
      st soup henv hn]
    exact ⟨rfl, rfl, rfl, rfl, rfl⟩

/-- C6, witness: a missing credential on a reachable seed (written without a
scheme, which gets normalized) yields the typed failure while the crawl batch
is still produced and reported. -/
theorem c6_witness :
    (audit_page envOk (normalizeUrl "seed.test")).error = none ∧
    (run_pagespeed_insights none psiTriv (normalizeUrl "seed.test") =
        (none, some "Google PageSpeed API Key not found.") ∧
      ((auditSite envOk psiTriv none "seed.test" 2).outcome).isSome = true ∧
      ((auditSite envOk psiTriv none "seed.test" 2).outcome).map
          AuditOutcome.psi_error =
        some (some "Google PageSpeed API Key not found.") ∧
      ((auditSite envOk psiTriv none "seed.test" 2).outcome).map
          AuditOutcome.psi_results = some none ∧
      (((auditSite envOk psiTriv none "seed.test" 2).batch).getD []).head? =
        some (audit_page envOk (normalizeUrl "seed.test"))) :=
  ⟨by decide, c6_missing_key_degrades envOk psiTriv "seed.test" 2 (by decide)⟩

/-- C7, counterexample: with a budget of exactly 1 and a failing seed fetch,
the handler aborts and returns no batch — not a batch of length 1. -/
theorem c7_counterexample :
    (auditSite envTimeout psiTriv (some "key") "https://one.test/" 1).batch =
      none ∧
    (audit_page envTimeout (normalizeUrl "https://one.test/")).error.isSome =
      true := by
  decide

/-- C7 (amended): with a budget of 1, whenever the seed fetch succeeds the
batch is exactly the one-element list holding the seed's result, no matter
how many same-origin links the seed page contains; when the seed fetch fails
no batch is produced. -/
theorem c7_budget_one_seed_only (env : String → FetchResult)
    (psiEnv : String → PsiOutcome) (apiKey : Option String) (url_input : String)
    (hok : (audit_page env (normalizeUrl url_input)).error = none) :
    (auditSite env psiEnv apiKey url_input 1).batch =
      some [audit_page env (normalizeUrl url_input)] ∧
    (auditSite env psiEnv apiKey url_input 1).links = some [] := by
  obtain ⟨st, soup, henv⟩ := exists_ok_of_error_none env (normalizeUrl url_input) hok
  unfold auditSite
  rw [auditSiteUrl_ok_nocrawl env psiEnv apiKey (normalizeUrl url_input) 1
    st soup henv (by omega)]
  exact ⟨rfl, rfl⟩

/-- C7, witness: a seed page with two same-origin links audited with budget 1
yields a batch holding only the seed's result and dispatches nothing. -/
theorem c7_witness :
    (audit_page envOk (normalizeUrl "https://seed.test/")).error = none ∧
    ((auditSite envOk psiTriv (some "key") "https://seed.test/" 1).batch =
        some [audit_page envOk (normalizeUrl "https://seed.test/")] ∧
      (auditSite envOk psiTriv (some "key") "https://seed.test/" 1).links =
        some []) :=
  ⟨by decide,
    c7_budget_one_seed_only envOk psiTriv (some "key") "https://seed.test/"
      (by decide)⟩
